import Mathlib

/-!
# ZHigh constant propagation: creation of stickified constants

A shallow embedding of `src/Accelerators/NNPA/Transform/ZHigh/ZHighConstPropagation.cpp`:
`emitZHighStickifiedConstant`, `createConstantForStick`,
`createConstantForStickForLSTM` and `createConstantForStickForGRU`.

Conventions of the embedding.

* A C++ `assert` is a check: when its condition is false the operation stops
  with a `Failure` naming the assertion (the message of the assertion where it
  has one).  A member call through a null `Operation *`, a failed `mlir::cast`
  and an element type without a zDNN type stop the operation as well.
* The functions of the NNPA support library that the file calls but does not
  define (`getRawData`, `mlirTypeToZDNNType`, `set_info_pre_transformed_desc`,
  `generate_transformed_desc_concatenated`, `init_ztensor`,
  `allochelper_ztensor_alloc`, `stickify`) and the constants of the zDNN header
  are the fields of a parameter `Support`; the theorems on the operations hold
  for every value of that parameter, and `sampleSupport` is one value, used to
  evaluate the operations on concrete inputs.
* Every call into the support library that builds a descriptor, allocates or
  sticks is recorded, oldest first, in `PassState.calls`, with the arguments it
  was given; the operations created through the rewriter are recorded in
  `PassState.created`.  Both records survive a failure, so that "nothing was
  built before the failure" is a statement about the state returned.
-/

namespace ZHighConstProp


/-! ## Data model -/

/-- One `char` of a raw buffer. -/
abbrev Byte := Fin 256

/-- The MLIR types the file distinguishes: shaped types (ranked and unranked
tensors) carry a shape and an element type, the others do not. -/
inductive MlirType where
  | floatType (width : Nat)
  | integerType (width : Nat)
  | indexType
  | noneType
  | rankedTensor (shape : List Int) (elementType : MlirType) (encoding : Option String)
  | unrankedTensor (elementType : MlirType)
  deriving DecidableEq, Repr

namespace MlirType

/-- Whether `mlir::cast<ShapedType>` accepts the type. -/
def isShapedType : MlirType → Bool
  | rankedTensor _ _ _ => true
  | unrankedTensor _ => true
  | _ => false

/-- The `ShapedType::getShape` accessor: the dimensions of a ranked tensor, the
empty array for an unranked one. -/
def getShape : MlirType → List Int
  | rankedTensor shape _ _ => shape
  | _ => []

/-- The `ShapedType::getElementType` accessor. -/
def getElementType : MlirType → MlirType
  | rankedTensor _ e _ => e
  | unrankedTensor e => e
  | t => t

end MlirType

/-- A dense elements attribute: the tensor type and the element storage. -/
structure DenseElementsAttr where
  type : MlirType
  data : List Byte
  deriving DecidableEq, Repr

/-- The attributes an operation may carry under a name. -/
inductive Attribute where
  | denseElements (attr : DenseElementsAttr)
  | denseResource (type : MlirType) (hint : String) (blob : List Byte)
  | boolAttr (b : Bool)
  | integerAttr (v : Int)
  | stringAttr (s : String)
  | unitAttr
  deriving DecidableEq, Repr

/-- A source location. -/
abbrev Location := Nat

/-- An operation of the graph: its name and its attribute dictionary. -/
structure Operation where
  name : String
  attrs : List (String × Attribute)
  deriving DecidableEq, Repr

/-- The `Operation::getAttrOfType<Attribute>` lookup: the attribute stored under
`name`, or null. -/
def Operation.getAttr (op : Operation) (name : String) : Option Attribute :=
  op.attrs.lookup name

/-- The `mlir::dyn_cast_or_null<mlir::DenseElementsAttr>` cast: null for a null
attribute and for an attribute of another kind. -/
def dynCastOrNullDenseElementsAttr : Option Attribute → Option DenseElementsAttr
  | some (Attribute.denseElements a) => some a
  | _ => none

/-- An SSA value: its type, its location and the operation defining it (null for
a block argument). -/
structure Value where
  type : MlirType
  loc : Location
  definingOp : Option Operation
  deriving DecidableEq, Repr

/-- The operation `ZHighStickifiedConstantOp` with the operands of its builder:
location, result type, `stickified`, `value` and `alignment`. -/
structure ZHighStickifiedConstantOp where
  loc : Location
  resultType : MlirType
  stickified : Bool
  value : Option Attribute
  alignment : Int
  deriving DecidableEq, Repr

/-- Modelled from the spec: the enumeration `zdnn_data_layouts` of the zDNN
header, which is not among the sources; the spec's LayoutScheme has the two
variants 2D-stacked and 3D-stacked. -/
inductive zdnn_data_layouts where
  | ZDNN_2DS
  | ZDNN_3DS
  deriving DecidableEq, Repr

/-- Modelled from the spec: the enumeration `zdnn_data_types` of the zDNN
header, which is not among the sources; a numeric format is identified by its
code. -/
abbrev zdnn_data_types := Nat

/-- Modelled from the spec: the status `zdnn_status` of the zDNN header, which is
not among the sources; `ZDNN_OK` or a failure code. -/
inductive zdnn_status where
  | ZDNN_OK
  | failed (code : Nat)
  deriving DecidableEq, Repr

/-- Modelled from the spec: the tensor descriptor `zdnn_tensor_desc` of the zDNN
header, which is not among the sources; the file only passes descriptors on to
the support library and never reads one. -/
structure zdnn_tensor_desc where
  layout : Nat
  type : zdnn_data_types
  dims : List Nat
  deriving DecidableEq, Repr

/-- Modelled from the spec: the `zdnn_ztensor` of the zDNN header, which is not
among the sources: the pair of descriptors plus its buffer.  `buffer i` is the
byte at offset `i` from the buffer pointer and `buffer_size` the 64-bit unsigned
size field. -/
structure zdnn_ztensor where
  pre_transformed_desc : zdnn_tensor_desc
  transformed_desc : zdnn_tensor_desc
  buffer_size : Nat
  buffer : Nat → Byte

/-- The NNPA support library and zDNN header as far as the file uses them; none
of it is among the sources, so each function and constant is a parameter. -/
structure Support where
  RNN_TYPE_LSTM : Nat
  RNN_TYPE_GRU : Nat
  USAGE_WEIGHTS : Nat
  USAGE_BIASES : Nat
  PREV_LAYER_NONE : Nat
  dialectNamespace : String
  getRawData : DenseElementsAttr → List Byte
  mlirTypeToZDNNType : MlirType → Option zdnn_data_types
  set_info_pre_transformed_desc :
    zdnn_data_layouts → zdnn_data_types → List Int → zdnn_tensor_desc
  generate_transformed_desc_concatenated :
    zdnn_tensor_desc → Nat → zdnn_status × zdnn_tensor_desc
  init_ztensor : zdnn_tensor_desc → zdnn_tensor_desc → zdnn_ztensor
  allochelper_ztensor_alloc : zdnn_ztensor → zdnn_status × zdnn_ztensor
  stickify : zdnn_ztensor → List (List Byte) → zdnn_status × zdnn_ztensor

/-- A recorded call into the support library, with the arguments handed over. -/
inductive Call where
  | set_info_pre_transformed_desc (layout : zdnn_data_layouts) (type : zdnn_data_types)
      (shape : List Int)
  | generate_transformed_desc_concatenated (pre : zdnn_tensor_desc) (info : Nat)
  | init_ztensor (pre tfrmd : zdnn_tensor_desc)
  | allochelper_ztensor_alloc
  | stickify (buffers : List (List Byte))
  deriving DecidableEq, Repr

/-- Why an operation stopped. -/
inductive Failure where
  | wrongTensorShape
  | attributeIsNull
  | statusNotOk
  | castFailed
  | nullOperation
  | unsupportedDataType
  deriving DecidableEq, Repr

/-- The state an operation runs in: the operations created through the pattern
rewriter and the calls made into the support library, both oldest first. -/
structure PassState where
  created : List ZHighStickifiedConstantOp
  calls : List Call
  deriving DecidableEq, Repr

/-- The state at the start of a pattern match. -/
def PassState.init : PassState := ⟨[], []⟩

/-- A computation over the pass state that ends in a value or in a failure; the
state is returned in both cases. -/
def Run (α : Type) : Type := PassState → PassState × Except Failure α

namespace Run

/-- Finish with a value. -/
def ret {α : Type} (a : α) : Run α := fun s => (s, Except.ok a)

/-- Stop with a failure. -/
def fail {α : Type} (e : Failure) : Run α := fun s => (s, Except.error e)

/-- Sequencing: a failure of the first computation ends the whole. -/
def andThen {α β : Type} (m : Run α) (f : α → Run β) : Run β := fun s =>
  match m s with
  | (s1, Except.ok a) => f a s1
  | (s1, Except.error e) => (s1, Except.error e)

instance : Monad Run where
  pure := ret
  bind := andThen

/-- The C++ `assert`. -/
def assert (cond : Bool) (e : Failure) : Run Unit :=
  if cond then ret () else fail e

/-- Record a call into the support library. -/
def record (c : Call) : Run Unit := fun s => (⟨s.created, s.calls ++ [c]⟩, Except.ok ())

/-- The `rewriter.create<ZHighStickifiedConstantOp>` builder call. -/
def create (op : ZHighStickifiedConstantOp) : Run ZHighStickifiedConstantOp := fun s =>
  (⟨s.created ++ [op], s.calls⟩, Except.ok op)

end Run

/-- The `mlir::cast<ShapedType>` cast, which asserts that the type is shaped. -/
def castShapedType (t : MlirType) : Run MlirType :=
  if t.isShapedType then Run.ret t else Run.fail Failure.castFailed

/-- The member call `op->getAttrOfType<::mlir::Attribute>(name)` through a
pointer that may be null. -/
def getAttrOfType (op : Option Operation) (name : String) : Run (Option Attribute) :=
  match op with
  | some o => Run.ret (o.getAttr name)
  | none => Run.fail Failure.nullOperation

/-- Conversion of a 64-bit unsigned value to `int64_t`. -/
def toInt64 (n : Nat) : Int :=
  if n % 2 ^ 64 < 2 ^ 63 then ((n % 2 ^ 64 : Nat) : Int) else ((n % 2 ^ 64 : Nat) : Int) - 2 ^ 64

/-- Conversion of an `int64_t` to `size_t`. -/
def toSizeT (i : Int) : Nat := (i % 2 ^ 64).toNat

/-- The array `llvm::ArrayRef((char *)p, n)`: the `n` bytes from `p` on. -/
def arrayRef (p : Nat → Byte) (n : Nat) : List Byte := (List.range n).map p

/-- The call `mlirTypeToZDNNType(elementType)`; an element type without a zDNN
type stops the operation. -/
def mlirTypeToZDNNType (S : Support) (elementType : MlirType) : Run zdnn_data_types :=
  match S.mlirTypeToZDNNType elementType with
  | some t => Run.ret t
  | none => Run.fail Failure.unsupportedDataType

/-- The call `set_info_pre_transformed_desc(&desc, layout, type, shape)`, recorded. -/
def set_info_pre_transformed_desc (S : Support) (layout : zdnn_data_layouts)
    (type : zdnn_data_types) (shape : List Int) : Run zdnn_tensor_desc := do
  Run.record (Call.set_info_pre_transformed_desc layout type shape)
  pure (S.set_info_pre_transformed_desc layout type shape)

/-- The call `generate_transformed_desc_concatenated(&pre, info, &tfrmd)`, recorded. -/
def generate_transformed_desc_concatenated (S : Support) (pre : zdnn_tensor_desc)
    (info : Nat) : Run (zdnn_status × zdnn_tensor_desc) := do
  Run.record (Call.generate_transformed_desc_concatenated pre info)
  pure (S.generate_transformed_desc_concatenated pre info)

/-- The call `init_ztensor(&pre, &tfrmd, &ztensor)`, recorded. -/
def init_ztensor (S : Support) (pre tfrmd : zdnn_tensor_desc) : Run zdnn_ztensor := do
  Run.record (Call.init_ztensor pre tfrmd)
  pure (S.init_ztensor pre tfrmd)

/-- The call `allochelper_ztensor_alloc(&ztensor)`, recorded. -/
def allochelper_ztensor_alloc (S : Support) (ztensor : zdnn_ztensor) :
    Run (zdnn_status × zdnn_ztensor) := do
  Run.record Call.allochelper_ztensor_alloc
  pure (S.allochelper_ztensor_alloc ztensor)

/-- The variadic call `stickify(&ztensor, buffer, ...)`, recorded with the source
buffers in argument order. -/
def stickify (S : Support) (ztensor : zdnn_ztensor) (buffers : List (List Byte)) :
    Run (zdnn_status × zdnn_ztensor) := do
  Run.record (Call.stickify buffers)
  pure (S.stickify ztensor buffers)

/-- The check `assert(status == ZDNN_OK)`. -/
def assertOk (status : zdnn_status) : Run Unit :=
  Run.assert (status == zdnn_status.ZDNN_OK) Failure.statusNotOk

/-- The setter `setValueAttr` of the operation. -/
def ZHighStickifiedConstantOp.setValueAttr (op : ZHighStickifiedConstantOp)
    (valueAttr : Attribute) : ZHighStickifiedConstantOp :=
  { op with value := some valueAttr }

/-! ## The operations of the file -/

/-- Emit a ZHighStickifiedConstant using information from a stickified ztensor.
The source creates the operation with a null value and then sets the value
attribute on it in place; nothing can fail in between, so the rewriter's record
takes the operation with its value set, as it is returned. -/
def emitZHighStickifiedConstant (S : Support) (loc : Location) (ztensor : zdnn_ztensor)
    (outputType : MlirType) : Run ZHighStickifiedConstantOp :=
  let stickifiedConstant : ZHighStickifiedConstantOp :=
    { loc := loc, resultType := outputType, stickified := true, value := none,
      alignment := 4096 }
  let sizeInBytes : Int := toInt64 ztensor.buffer_size
  let valueAttr : Attribute :=
    Attribute.denseResource
      (MlirType.rankedTensor [sizeInBytes] (MlirType.integerType 8) none)
      S.dialectNamespace
      (arrayRef ztensor.buffer (toSizeT sizeInBytes))
  Run.create (stickifiedConstant.setValueAttr valueAttr)

/-- The single-source path: wraps the dense value of the producer of `input`
without sticking it.  `layout` is not used. -/
def createConstantForStick (replacingValue input : Value) (_layout : String) :
    Run ZHighStickifiedConstantOp := do
  let loc := replacingValue.loc
  let op := input.definingOp
  let dataAttr := dynCastOrNullDenseElementsAttr (← getAttrOfType op "value")
  match dataAttr with
  | none => Run.fail Failure.attributeIsNull
  | some dataAttr =>
    Run.create
      { loc := loc, resultType := replacingValue.type, stickified := false,
        value := some (Attribute.denseElements dataAttr), alignment := 4096 }

/-- The fused LSTM path: sticks the four gates into one ztensor and emits it. -/
def createConstantForStickForLSTM (S : Support) (replacingValue inputF inputI inputC
    inputO : Value) : Run ZHighStickifiedConstantOp := do
  let loc := replacingValue.loc
  let fOp := inputF.definingOp
  let iOp := inputI.definingOp
  let cOp := inputC.definingOp
  let oOp := inputO.definingOp
  let fShape := (← castShapedType inputF.type).getShape
  Run.assert (fShape.length == 2 || fShape.length == 3) Failure.wrongTensorShape
  let elementType := (← castShapedType inputF.type).getElementType
  -- Read dense attributes.
  let fDataAttr := dynCastOrNullDenseElementsAttr (← getAttrOfType fOp "value")
  let iDataAttr := dynCastOrNullDenseElementsAttr (← getAttrOfType iOp "value")
  let cDataAttr := dynCastOrNullDenseElementsAttr (← getAttrOfType cOp "value")
  let oDataAttr := dynCastOrNullDenseElementsAttr (← getAttrOfType oOp "value")
  match fDataAttr, iDataAttr, cDataAttr, oDataAttr with
  | some fDataAttr, some iDataAttr, some cDataAttr, some oDataAttr =>
    -- Read the raw data of the attributes.
    let rawFData := S.getRawData fDataAttr
    let rawIData := S.getRawData iDataAttr
    let rawCData := S.getRawData cDataAttr
    let rawOData := S.getRawData oDataAttr
    -- Pre-transformed descriptor.
    let rank := fShape.length
    let zDNNLayout :=
      if rank == 2 then zdnn_data_layouts.ZDNN_2DS else zdnn_data_layouts.ZDNN_3DS
    let zDNNType ← mlirTypeToZDNNType S elementType
    let pre_tfrmd_desc ← set_info_pre_transformed_desc S zDNNLayout zDNNType fShape
    -- Transformed descriptor.
    let concatInfo :=
      S.RNN_TYPE_LSTM ||| (if rank == 2 then S.USAGE_BIASES else S.USAGE_WEIGHTS) |||
        S.PREV_LAYER_NONE
    let (status, tfrmd_desc) ← generate_transformed_desc_concatenated S pre_tfrmd_desc concatInfo
    assertOk status
    -- Stick data using the software stickify.
    let ztensor ← init_ztensor S pre_tfrmd_desc tfrmd_desc
    let (status, ztensor) ← allochelper_ztensor_alloc S ztensor
    assertOk status
    let (status, ztensor) ← stickify S ztensor [rawFData, rawIData, rawCData, rawOData]
    assertOk status
    -- Emit a constant global in ZHigh dialect.
    emitZHighStickifiedConstant S loc ztensor replacingValue.type
  | _, _, _, _ => Run.fail Failure.attributeIsNull

/-- The fused GRU path: sticks the three gates into one ztensor and emits it. -/
def createConstantForStickForGRU (S : Support) (replacingValue inputZ inputR
    inputH : Value) : Run ZHighStickifiedConstantOp := do
  let loc := replacingValue.loc
  let zOp := inputZ.definingOp
  let rOp := inputR.definingOp
  let hOp := inputH.definingOp
  let zShape := (← castShapedType inputZ.type).getShape
  Run.assert (zShape.length == 2 || zShape.length == 3) Failure.wrongTensorShape
  let elementType := (← castShapedType inputZ.type).getElementType
  -- Read dense attributes.
  let zDataAttr := dynCastOrNullDenseElementsAttr (← getAttrOfType zOp "value")
  let rDataAttr := dynCastOrNullDenseElementsAttr (← getAttrOfType rOp "value")
  let hDataAttr := dynCastOrNullDenseElementsAttr (← getAttrOfType hOp "value")
  match zDataAttr, rDataAttr, hDataAttr with
  | some zDataAttr, some rDataAttr, some hDataAttr =>
    -- Read the raw data of the attributes.
    let rawZData := S.getRawData zDataAttr
    let rawRData := S.getRawData rDataAttr
    let rawHData := S.getRawData hDataAttr
    -- Pre-transformed descriptor.
    let rank := zShape.length
    let zDNNLayout :=
      if rank == 2 then zdnn_data_layouts.ZDNN_2DS else zdnn_data_layouts.ZDNN_3DS
    let zDNNType ← mlirTypeToZDNNType S elementType
    let pre_tfrmd_desc ← set_info_pre_transformed_desc S zDNNLayout zDNNType zShape
    -- Transformed descriptor.
    let concatInfo :=
      S.RNN_TYPE_GRU ||| (if rank == 2 then S.USAGE_BIASES else S.USAGE_WEIGHTS) |||
        S.PREV_LAYER_NONE
    let (status, tfrmd_desc) ← generate_transformed_desc_concatenated S pre_tfrmd_desc concatInfo
    assertOk status
    -- Stick data using the software stickify.
    let ztensor ← init_ztensor S pre_tfrmd_desc tfrmd_desc
    let (status, ztensor) ← allochelper_ztensor_alloc S ztensor
    assertOk status
    let (status, ztensor) ← stickify S ztensor [rawZData, rawRData, rawHData]
    assertOk status
    -- Emit a constant global in ZHigh dialect.
    emitZHighStickifiedConstant S loc ztensor replacingValue.type
  | _, _, _ => Run.fail Failure.attributeIsNull

/-! ## Observations used to state the properties -/

/-- The dense payload of the producer of a value: null when the value has no
producer, when the producer has no attribute "value", and when that attribute is
not a dense elements attribute. -/
def Value.payload (v : Value) : Option DenseElementsAttr :=
  match v.definingOp with
  | some op => dynCastOrNullDenseElementsAttr (op.getAttr "value")
  | none => none

/-- The calls recorded in `s1` that were not yet recorded in `s`. -/
def newCalls (s s1 : PassState) : List Call := s1.calls.drop s.calls.length

/-- The operations created in `s1` that were not yet created in `s`. -/
def newCreated (s s1 : PassState) : List ZHighStickifiedConstantOp :=
  s1.created.drop s.created.length

/-- The buffer sequences handed to `stickify`, one entry per call. -/
def stickifyBuffers (calls : List Call) : List (List (List Byte)) :=
  calls.filterMap fun c =>
    match c with
    | Call.stickify buffers => some buffers
    | _ => none

/-- The layouts handed to `set_info_pre_transformed_desc`, one entry per call. -/
def preTransformedLayouts (calls : List Call) : List zdnn_data_layouts :=
  calls.filterMap fun c =>
    match c with
    | Call.set_info_pre_transformed_desc layout _ _ => some layout
    | _ => none

/-- The concatenation infos handed to `generate_transformed_desc_concatenated`,
one entry per call. -/
def concatInfos (calls : List Call) : List Nat :=
  calls.filterMap fun c =>
    match c with
    | Call.generate_transformed_desc_concatenated _ info => some info
    | _ => none

/-- A request to one of the three creation operations, with its arguments. -/
inductive Creation where
  | stick (replacingValue input : Value) (layout : String)
  | lstm (replacingValue inputF inputI inputC inputO : Value)
  | gru (replacingValue inputZ inputR inputH : Value)
  deriving DecidableEq, Repr

/-- Run the creation operation a request names. -/
def Creation.run (S : Support) : Creation → Run ZHighStickifiedConstantOp
  | Creation.stick replacingValue input layout =>
    createConstantForStick replacingValue input layout
  | Creation.lstm replacingValue inputF inputI inputC inputO =>
    createConstantForStickForLSTM S replacingValue inputF inputI inputC inputO
  | Creation.gru replacingValue inputZ inputR inputH =>
    createConstantForStickForGRU S replacingValue inputZ inputR inputH

/-- The source values of a request, in argument order. -/
def Creation.sources : Creation → List Value
  | Creation.stick _ input _ => [input]
  | Creation.lstm _ inputF inputI inputC inputO => [inputF, inputI, inputC, inputO]
  | Creation.gru _ inputZ inputR inputH => [inputZ, inputR, inputH]

/-- Whether the checks that precede the payload check pass: every source has a
producer and, in a fused path, the first gate has a shaped type of rank 2 or 3. -/
def Creation.reachesPayloadCheck (req : Creation) : Prop :=
  (∀ v ∈ req.sources, v.definingOp ≠ none) ∧
    match req with
    | Creation.stick _ _ _ => True
    | Creation.lstm _ inputF _ _ _ =>
      inputF.type.isShapedType = true ∧
        (inputF.type.getShape.length = 2 ∨ inputF.type.getShape.length = 3)
    | Creation.gru _ inputZ _ _ =>
      inputZ.type.isShapedType = true ∧
        (inputZ.type.getShape.length = 2 ∨ inputZ.type.getShape.length = 3)

instance (req : Creation) : Decidable req.reachesPayloadCheck := by
  cases req <;> (unfold Creation.reachesPayloadCheck; exact inferInstance)

/-- The steps both fused paths run once the gates are read: descriptors,
allocation, stick and emission, for the cell type flag `rnnType`.  The bodies of
`createConstantForStickForLSTM` and `createConstantForStickForGRU` end in these
steps (`lstm_fold`, `gru_fold`). -/
def stickGates (S : Support) (rnnType : Nat) (loc : Location) (outputType : MlirType)
    (shape : List Int) (elementType : MlirType) (buffers : List (List Byte)) :
    Run ZHighStickifiedConstantOp := do
  let rank := shape.length
  let zDNNLayout :=
    if rank == 2 then zdnn_data_layouts.ZDNN_2DS else zdnn_data_layouts.ZDNN_3DS
  let zDNNType ← mlirTypeToZDNNType S elementType
  let pre_tfrmd_desc ← set_info_pre_transformed_desc S zDNNLayout zDNNType shape
  let concatInfo :=
    rnnType ||| (if rank == 2 then S.USAGE_BIASES else S.USAGE_WEIGHTS) ||| S.PREV_LAYER_NONE
  let (status, tfrmd_desc) ← generate_transformed_desc_concatenated S pre_tfrmd_desc concatInfo
  assertOk status
  let ztensor ← init_ztensor S pre_tfrmd_desc tfrmd_desc
  let (status, ztensor) ← allochelper_ztensor_alloc S ztensor
  assertOk status
  let (status, ztensor) ← stickify S ztensor buffers
  assertOk status
  emitZHighStickifiedConstant S loc ztensor outputType

/-- The operation `emitZHighStickifiedConstant` builds from a ztensor. -/
def stickifiedConstantOf (S : Support) (loc : Location) (ztensor : zdnn_ztensor)
    (outputType : MlirType) : ZHighStickifiedConstantOp :=
  { loc := loc, resultType := outputType, stickified := true,
    value := some (Attribute.denseResource
      (MlirType.rankedTensor [toInt64 ztensor.buffer_size] (MlirType.integerType 8) none)
      S.dialectNamespace
      (arrayRef ztensor.buffer (toSizeT (toInt64 ztensor.buffer_size)))),
    alignment := 4096 }

/-- The layout both fused paths choose for a shape. -/
def fusedLayout (shape : List Int) : zdnn_data_layouts :=
  if shape.length = 2 then zdnn_data_layouts.ZDNN_2DS else zdnn_data_layouts.ZDNN_3DS

/-- The concatenation info both fused paths build for a cell type flag and a shape. -/
def fusedConcatInfo (S : Support) (rnnType : Nat) (shape : List Int) : Nat :=
  rnnType ||| (if shape.length = 2 then S.USAGE_BIASES else S.USAGE_WEIGHTS) |||
    S.PREV_LAYER_NONE

/-! ## A sample support library and sample inputs

Used to evaluate the operations on concrete inputs. -/

/-- A support library for evaluation: sample flag values for concatenation infos
(cell type in bit 0, usage in bits 2 and 3), 16- and 32-bit floats as the
supported element types, descriptors that copy their arguments, every status
`ZDNN_OK`, a buffer of 8 bytes, and a stick that writes the raw gate buffers one
after the other. -/
def sampleSupport : Support where
  RNN_TYPE_LSTM := 0
  RNN_TYPE_GRU := 1
  USAGE_WEIGHTS := 0
  USAGE_BIASES := 8
  PREV_LAYER_NONE := 0
  dialectNamespace := "zhigh"
  getRawData := fun a => a.data
  mlirTypeToZDNNType := fun t =>
    match t with
    | MlirType.floatType 16 => some 1
    | MlirType.floatType 32 => some 2
    | _ => none
  set_info_pre_transformed_desc := fun layout type shape =>
    ⟨(if layout = zdnn_data_layouts.ZDNN_2DS then 2 else 3), type, shape.map Int.toNat⟩
  generate_transformed_desc_concatenated := fun pre info =>
    (zdnn_status.ZDNN_OK, ⟨info, 0, pre.dims⟩)
  init_ztensor := fun pre tfrmd => ⟨pre, tfrmd, 0, fun _ => 0⟩
  allochelper_ztensor_alloc := fun zt =>
    (zdnn_status.ZDNN_OK, ⟨zt.pre_transformed_desc, zt.transformed_desc, 8, fun _ => 0⟩)
  stickify := fun zt buffers =>
    (zdnn_status.ZDNN_OK,
      ⟨zt.pre_transformed_desc, zt.transformed_desc, zt.buffer_size,
        fun i => (buffers.flatten).getD i 0⟩)

/-- A constant operation carrying the dense value `data` of type `t`. -/
def constantOp (t : MlirType) (data : List Byte) : Operation :=
  ⟨"onnx.Constant", [("value", Attribute.denseElements ⟨t, data⟩)]⟩

/-- The result of the constant operation `constantOp t data`. -/
def constantValue (t : MlirType) (data : List Byte) : Value :=
  ⟨t, 7, some (constantOp t data)⟩

/-- A ranked tensor of 32-bit floats. -/
def f32Tensor (shape : List Int) : MlirType :=
  MlirType.rankedTensor shape (MlirType.floatType 32) none

/-- A ztensor of four bytes 10, 11, 12, 13 (the bytes after them are 0). -/
def sampleZtensor : zdnn_ztensor :=
  ⟨⟨2, 2, [2, 8]⟩, ⟨8, 0, [2, 8]⟩, 4, fun i => [10, 11, 12, 13].getD i 0⟩

/-- The value a fused LSTM constant replaces in the samples. -/
def sampleReplaced : Value :=
  ⟨MlirType.rankedTensor [1, 2, 8] (MlirType.floatType 32) (some "FICO"), 7, none⟩

/-- A rank-1 source constant of four bytes. -/
def sampleVector : Value := constantValue (f32Tensor [4]) [1, 2, 3, 4]

/-- The forget gate of the sample LSTM bias: a (2,8) tensor with payload 1, 2. -/
def sampleGateF : Value := constantValue (f32Tensor [2, 8]) [1, 2]

/-- The input gate of the sample LSTM bias. -/
def sampleGateI : Value := constantValue (f32Tensor [2, 8]) [3, 4]

/-- The cell-candidate gate of the sample LSTM bias. -/
def sampleGateC : Value := constantValue (f32Tensor [2, 8]) [5, 6]

/-- The output gate of the sample LSTM bias. -/
def sampleGateO : Value := constantValue (f32Tensor [2, 8]) [7, 8]

/-- The constant the sample LSTM request yields. -/
def sampleLstmConstant : ZHighStickifiedConstantOp :=
  ⟨7, sampleReplaced.type, true,
    some (Attribute.denseResource (MlirType.rankedTensor [8] (MlirType.integerType 8) none)
      "zhigh" [1, 2, 3, 4, 5, 6, 7, 8]), 4096⟩

/-- A rank-1 gate with a dense payload. -/
def sampleGateRank1 : Value := constantValue (f32Tensor [8]) [1, 2]

/-- A rank-4 gate with a dense payload. -/
def sampleGateRank4 : Value := constantValue (f32Tensor [1, 1, 2, 8]) [1, 2]

/-- A gate of another shape than `sampleGateF`: (2,4) instead of (2,8). -/
def sampleGateNarrow : Value := constantValue (f32Tensor [2, 4]) [3, 4]

/-- A gate of another element type than `sampleGateF`: 16-bit instead of 32-bit
floats. -/
def sampleGateHalf : Value :=
  constantValue (MlirType.rankedTensor [2, 8] (MlirType.floatType 16) none) [5, 6]

/-- The constant the sample GRU request yields. -/
def sampleGruConstant : ZHighStickifiedConstantOp :=
  ⟨7, sampleReplaced.type, true,
    some (Attribute.denseResource (MlirType.rankedTensor [8] (MlirType.integerType 8) none)
      "zhigh" [1, 2, 3, 4, 5, 6, 0, 0]), 4096⟩

/-- The constant `createConstantForStick` yields for `sampleVector`. -/
def sampleVectorConstant : ZHighStickifiedConstantOp :=
  ⟨7, sampleReplaced.type, false,
    some (Attribute.denseElements ⟨f32Tensor [4], [1, 2, 3, 4]⟩), 4096⟩

/-- The constant `createConstantForStick` yields for `sampleGateRank4`. -/
def sampleRank4Constant : ZHighStickifiedConstantOp :=
  ⟨7, sampleReplaced.type, false,
    some (Attribute.denseElements ⟨f32Tensor [1, 1, 2, 8], [1, 2]⟩), 4096⟩

/-- A gate whose producer has no attribute "value". -/
def sampleGateNoValue : Value :=
  ⟨f32Tensor [2, 8], 7, some ⟨"onnx.Add", []⟩⟩

/-- A gate whose producer carries a "value" that is not a dense elements
attribute. -/
def sampleGateNotDense : Value :=
  ⟨f32Tensor [2, 8], 7, some ⟨"onnx.Constant", [("value", Attribute.stringAttr "x")]⟩⟩

/-- A GRU weight gate of shape (3,8,8). -/
def sampleWeightGate : Value := constantValue (f32Tensor [3, 8, 8]) [1, 2]

/-! ## Lemmas on the embedding -/

@[simp] theorem Run.pure_apply {α : Type} (a : α) (s : PassState) :
    (pure a : Run α) s = (s, Except.ok a) := rfl

@[simp] theorem Run.ret_apply {α : Type} (a : α) (s : PassState) :
    (Run.ret a : Run α) s = (s, Except.ok a) := rfl

@[simp] theorem Run.fail_apply {α : Type} (e : Failure) (s : PassState) :
    (Run.fail e : Run α) s = (s, Except.error e) := rfl

@[simp] theorem Run.bind_apply {α β : Type} (m : Run α) (f : α → Run β) (s : PassState) :
    (m >>= f) s = match m s with
      | (s1, Except.ok a) => f a s1
      | (s1, Except.error e) => (s1, Except.error e) := rfl

@[simp] theorem Run.record_apply (c : Call) (s : PassState) :
    Run.record c s = (⟨s.created, s.calls ++ [c]⟩, Except.ok ()) := rfl

@[simp] theorem Run.create_apply (op : ZHighStickifiedConstantOp) (s : PassState) :
    Run.create op s = (⟨s.created ++ [op], s.calls⟩, Except.ok op) := rfl

theorem toSizeT_toInt64 (n : Nat) (h : n < 2 ^ 64) : toSizeT (toInt64 n) = n := by
  unfold toSizeT toInt64
  have h1 : n % 2 ^ 64 = n := Nat.mod_eq_of_lt h
  rw [h1]
  split <;> omega

theorem emit_run (S : Support) (loc : Location) (zt : zdnn_ztensor) (outputType : MlirType)
    (s : PassState) :
    emitZHighStickifiedConstant S loc zt outputType s =
      (⟨s.created ++ [stickifiedConstantOf S loc zt outputType], s.calls⟩,
        Except.ok (stickifiedConstantOf S loc zt outputType)) := rfl

theorem stick_run (rv input : Value) (layout : String) (s : PassState) :
    createConstantForStick rv input layout s =
      match input.definingOp with
      | none => (s, Except.error Failure.nullOperation)
      | some _ =>
        match input.payload with
        | none => (s, Except.error Failure.attributeIsNull)
        | some d =>
          (⟨s.created ++ [⟨rv.loc, rv.type, false, some (Attribute.denseElements d), 4096⟩],
              s.calls⟩,
            Except.ok ⟨rv.loc, rv.type, false, some (Attribute.denseElements d), 4096⟩) := by
  obtain ⟨t, l, op⟩ := input
  cases op with
  | none => simp only [createConstantForStick, getAttrOfType, Run.bind_apply, Run.fail_apply]
  | some o =>
    simp only [Value.payload]
    cases h : dynCastOrNullDenseElementsAttr (o.getAttr "value") <;>
      simp only [createConstantForStick, getAttrOfType, Run.bind_apply, Run.ret_apply, h,
        Run.fail_apply, Run.create_apply]

theorem lstm_fold (S : Support) (rv f i c o : Value) :
    createConstantForStickForLSTM S rv f i c o = (do
      let fShape := (← castShapedType f.type).getShape
      Run.assert (fShape.length == 2 || fShape.length == 3) Failure.wrongTensorShape
      let elementType := (← castShapedType f.type).getElementType
      let fDataAttr := dynCastOrNullDenseElementsAttr (← getAttrOfType f.definingOp "value")
      let iDataAttr := dynCastOrNullDenseElementsAttr (← getAttrOfType i.definingOp "value")
      let cDataAttr := dynCastOrNullDenseElementsAttr (← getAttrOfType c.definingOp "value")
      let oDataAttr := dynCastOrNullDenseElementsAttr (← getAttrOfType o.definingOp "value")
      match fDataAttr, iDataAttr, cDataAttr, oDataAttr with
      | some fDataAttr, some iDataAttr, some cDataAttr, some oDataAttr =>
        stickGates S S.RNN_TYPE_LSTM rv.loc rv.type fShape elementType
          [S.getRawData fDataAttr, S.getRawData iDataAttr, S.getRawData cDataAttr,
            S.getRawData oDataAttr]
      | _, _, _, _ => Run.fail Failure.attributeIsNull) := rfl

theorem gru_fold (S : Support) (rv z r h : Value) :
    createConstantForStickForGRU S rv z r h = (do
      let zShape := (← castShapedType z.type).getShape
      Run.assert (zShape.length == 2 || zShape.length == 3) Failure.wrongTensorShape
      let elementType := (← castShapedType z.type).getElementType
      let zDataAttr := dynCastOrNullDenseElementsAttr (← getAttrOfType z.definingOp "value")
      let rDataAttr := dynCastOrNullDenseElementsAttr (← getAttrOfType r.definingOp "value")
      let hDataAttr := dynCastOrNullDenseElementsAttr (← getAttrOfType h.definingOp "value")
      match zDataAttr, rDataAttr, hDataAttr with
      | some zDataAttr, some rDataAttr, some hDataAttr =>
        stickGates S S.RNN_TYPE_GRU rv.loc rv.type zShape elementType
          [S.getRawData zDataAttr, S.getRawData rDataAttr, S.getRawData hDataAttr]
      | _, _, _ => Run.fail Failure.attributeIsNull) := rfl

/-- Outcome of the fused LSTM path, by cases on what the checks before the first
call into the support library find. -/
theorem lstm_run (S : Support) (rv f i c o : Value) (s : PassState) :
    createConstantForStickForLSTM S rv f i c o s =
      if f.type.isShapedType = false then (s, Except.error Failure.castFailed)
      else if f.type.getShape.length ≠ 2 ∧ f.type.getShape.length ≠ 3 then
        (s, Except.error Failure.wrongTensorShape)
      else if f.definingOp = none ∨ i.definingOp = none ∨ c.definingOp = none ∨
          o.definingOp = none then (s, Except.error Failure.nullOperation)
      else
        match f.payload, i.payload, c.payload, o.payload with
        | some df, some di, some dc, some dO =>
          stickGates S S.RNN_TYPE_LSTM rv.loc rv.type f.type.getShape f.type.getElementType
            [S.getRawData df, S.getRawData di, S.getRawData dc, S.getRawData dO] s
        | _, _, _, _ => (s, Except.error Failure.attributeIsNull) := by
  rw [lstm_fold]
  obtain ⟨ft, fl, fop⟩ := f
  obtain ⟨it, il, iop⟩ := i
  obtain ⟨ct, cl, cop⟩ := c
  obtain ⟨ot, ol, oop⟩ := o
  by_cases h1 : ft.isShapedType = true
  · by_cases h2 : ft.getShape.length = 2 ∨ ft.getShape.length = 3
    · have h3 : ¬ (ft.getShape.length ≠ 2 ∧ ft.getShape.length ≠ 3) := by tauto
      cases fop with
      | none => simp [castShapedType, h1, Run.assert, h2, h3, getAttrOfType]
      | some fo =>
      cases iop with
      | none => simp [castShapedType, h1, Run.assert, h2, h3, getAttrOfType]
      | some io =>
      cases cop with
      | none => simp [castShapedType, h1, Run.assert, h2, h3, getAttrOfType]
      | some co =>
      cases oop with
      | none => simp [castShapedType, h1, Run.assert, h2, h3, getAttrOfType]
      | some oo =>
      simp only [Value.payload]
      cases hf : dynCastOrNullDenseElementsAttr (fo.getAttr "value") <;>
      cases hi : dynCastOrNullDenseElementsAttr (io.getAttr "value") <;>
      cases hc : dynCastOrNullDenseElementsAttr (co.getAttr "value") <;>
      cases ho : dynCastOrNullDenseElementsAttr (oo.getAttr "value") <;>
      simp only [Run.bind_apply, castShapedType, h1, if_true, Run.ret_apply, Run.assert,
        getAttrOfType, hf, hi, hc, ho, Bool.or_eq_true, beq_iff_eq, h2, Run.fail_apply,
        reduceCtorEq, or_self, if_false, h3]
    · have h3 : ¬ (ft.getShape.length = 2) ∧ ¬ (ft.getShape.length = 3) := by tauto
      simp [castShapedType, h1, Run.assert, h3]
  · simp [castShapedType, h1]

/-- Outcome of the fused GRU path, by cases on what the checks before the first
call into the support library find. -/
theorem gru_run (S : Support) (rv z r h : Value) (s : PassState) :
    createConstantForStickForGRU S rv z r h s =
      if z.type.isShapedType = false then (s, Except.error Failure.castFailed)
      else if z.type.getShape.length ≠ 2 ∧ z.type.getShape.length ≠ 3 then
        (s, Except.error Failure.wrongTensorShape)
      else if z.definingOp = none ∨ r.definingOp = none ∨ h.definingOp = none then
        (s, Except.error Failure.nullOperation)
      else
        match z.payload, r.payload, h.payload with
        | some dz, some dr, some dh =>
          stickGates S S.RNN_TYPE_GRU rv.loc rv.type z.type.getShape z.type.getElementType
            [S.getRawData dz, S.getRawData dr, S.getRawData dh] s
        | _, _, _ => (s, Except.error Failure.attributeIsNull) := by
  rw [gru_fold]
  obtain ⟨zt, zl, zop⟩ := z
  obtain ⟨rt, rl, rop⟩ := r
  obtain ⟨ht, hl, hop⟩ := h
  by_cases h1 : zt.isShapedType = true
  · by_cases h2 : zt.getShape.length = 2 ∨ zt.getShape.length = 3
    · have h3 : ¬ (zt.getShape.length ≠ 2 ∧ zt.getShape.length ≠ 3) := by tauto
      cases zop with
      | none => simp [castShapedType, h1, Run.assert, h2, h3, getAttrOfType]
      | some zo =>
      cases rop with
      | none => simp [castShapedType, h1, Run.assert, h2, h3, getAttrOfType]
      | some ro =>
      cases hop with
      | none => simp [castShapedType, h1, Run.assert, h2, h3, getAttrOfType]
      | some ho =>
      simp only [Value.payload]
      cases hz : dynCastOrNullDenseElementsAttr (zo.getAttr "value") <;>
      cases hr : dynCastOrNullDenseElementsAttr (ro.getAttr "value") <;>
      cases hh : dynCastOrNullDenseElementsAttr (ho.getAttr "value") <;>
      simp only [Run.bind_apply, castShapedType, h1, if_true, Run.ret_apply, Run.assert,
        getAttrOfType, hz, hr, hh, Bool.or_eq_true, beq_iff_eq, h2, Run.fail_apply,
        reduceCtorEq, or_self, if_false, h3]
    · have h3 : ¬ (zt.getShape.length = 2) ∧ ¬ (zt.getShape.length = 3) := by tauto
      simp [castShapedType, h1, Run.assert, h3]
  · simp [castShapedType, h1]

/-- Outcome of the common steps of the fused paths, by cases on where they stop. -/
theorem stickGates_cases (S : Support) (rnnType : Nat) (loc : Location) (outputType : MlirType)
    (shape : List Int) (elementType : MlirType) (buffers : List (List Byte)) (s : PassState) :
    stickGates S rnnType loc outputType shape elementType buffers s =
        (s, Except.error Failure.unsupportedDataType) ∨
    ∃ (t : zdnn_data_types) (pre tfrmd : zdnn_tensor_desc),
      stickGates S rnnType loc outputType shape elementType buffers s =
        (⟨s.created, s.calls ++
            [Call.set_info_pre_transformed_desc (fusedLayout shape) t shape,
              Call.generate_transformed_desc_concatenated pre
                (fusedConcatInfo S rnnType shape)]⟩,
          Except.error Failure.statusNotOk) ∨
      stickGates S rnnType loc outputType shape elementType buffers s =
        (⟨s.created, s.calls ++
            [Call.set_info_pre_transformed_desc (fusedLayout shape) t shape,
              Call.generate_transformed_desc_concatenated pre
                (fusedConcatInfo S rnnType shape),
              Call.init_ztensor pre tfrmd, Call.allochelper_ztensor_alloc]⟩,
          Except.error Failure.statusNotOk) ∨
      stickGates S rnnType loc outputType shape elementType buffers s =
        (⟨s.created, s.calls ++
            [Call.set_info_pre_transformed_desc (fusedLayout shape) t shape,
              Call.generate_transformed_desc_concatenated pre
                (fusedConcatInfo S rnnType shape),
              Call.init_ztensor pre tfrmd, Call.allochelper_ztensor_alloc,
              Call.stickify buffers]⟩,
          Except.error Failure.statusNotOk) ∨
      ∃ (allocated sticked : zdnn_ztensor),
        S.stickify allocated buffers = (zdnn_status.ZDNN_OK, sticked) ∧
        stickGates S rnnType loc outputType shape elementType buffers s =
          (⟨s.created ++ [stickifiedConstantOf S loc sticked outputType], s.calls ++
              [Call.set_info_pre_transformed_desc (fusedLayout shape) t shape,
                Call.generate_transformed_desc_concatenated pre
                  (fusedConcatInfo S rnnType shape),
                Call.init_ztensor pre tfrmd, Call.allochelper_ztensor_alloc,
                Call.stickify buffers]⟩,
            Except.ok (stickifiedConstantOf S loc sticked outputType)) := by
  cases ht : S.mlirTypeToZDNNType elementType with
  | none =>
    left
    simp only [stickGates, mlirTypeToZDNNType, ht, Run.bind_apply, Run.fail_apply]
  | some t =>
    right
    refine ⟨t, S.set_info_pre_transformed_desc (fusedLayout shape) t shape,
      (S.generate_transformed_desc_concatenated
        (S.set_info_pre_transformed_desc (fusedLayout shape) t shape)
        (fusedConcatInfo S rnnType shape)).2, ?_⟩
    cases hg : S.generate_transformed_desc_concatenated
        (S.set_info_pre_transformed_desc (fusedLayout shape) t shape)
        (fusedConcatInfo S rnnType shape) with
    | mk gs tf =>
    cases ha : S.allochelper_ztensor_alloc
        (S.init_ztensor (S.set_info_pre_transformed_desc (fusedLayout shape) t shape) tf) with
    | mk as za =>
    cases hs : S.stickify za buffers with
    | mk ss zs =>
    simp only [fusedLayout, fusedConcatInfo] at hg ha
    cases gs with
    | failed code =>
      left
      simp [stickGates, mlirTypeToZDNNType, ht, set_info_pre_transformed_desc,
        generate_transformed_desc_concatenated, hg, assertOk, Run.assert, fusedLayout,
        fusedConcatInfo]
    | ZDNN_OK =>
    cases as with
    | failed code =>
      right; left
      simp [stickGates, mlirTypeToZDNNType, ht, set_info_pre_transformed_desc,
        generate_transformed_desc_concatenated, hg, assertOk, Run.assert, fusedLayout,
        fusedConcatInfo, init_ztensor, allochelper_ztensor_alloc, ha]
    | ZDNN_OK =>
    cases ss with
    | failed code =>
      right; right; left
      simp [stickGates, mlirTypeToZDNNType, ht, set_info_pre_transformed_desc,
        generate_transformed_desc_concatenated, hg, assertOk, Run.assert, fusedLayout,
        fusedConcatInfo, init_ztensor, allochelper_ztensor_alloc, ha, stickify, hs]
    | ZDNN_OK =>
      right; right; right
      refine ⟨za, zs, hs, ?_⟩
      simp [stickGates, mlirTypeToZDNNType, ht, set_info_pre_transformed_desc,
        generate_transformed_desc_concatenated, hg, assertOk, Run.assert, fusedLayout,
        fusedConcatInfo, init_ztensor, allochelper_ztensor_alloc, ha, stickify, hs, emit_run]

@[simp] theorem newCalls_self (s : PassState) : newCalls s s = [] := by
  simp [newCalls]

@[simp] theorem newCalls_append (s : PassState) (created : List ZHighStickifiedConstantOp)
    (l : List Call) : newCalls s ⟨created, s.calls ++ l⟩ = l := by
  simp [newCalls]

@[simp] theorem newCreated_self (s : PassState) : newCreated s s = [] := by
  simp [newCreated]

@[simp] theorem newCreated_same (s : PassState) (calls : List Call) :
    newCreated s ⟨s.created, calls⟩ = [] := by
  simp [newCreated]

@[simp] theorem newCreated_append (s : PassState) (l : List ZHighStickifiedConstantOp)
    (calls : List Call) : newCreated s ⟨s.created ++ l, calls⟩ = l := by
  simp [newCreated]

/-! ## C1 -/

/-- C1: for every stickified ztensor (with a size that fits its 64-bit field) and
every output type, `emitZHighStickifiedConstant` succeeds and returns a constant
with `stickified = true`, the output type as result type, and as value a byte blob
of length exactly `buffer_size` holding the first `buffer_size` bytes of the buffer
in order; so the emitted size is the size in bytes of the transformed descriptor
whenever `buffer_size` is that size, as the spec's invariant on the stickified
buffer says.  Whenever `createConstantForStickForLSTM` or
`createConstantForStickForGRU` returns a constant, it is the one
`emitZHighStickifiedConstant` builds, at the location and type of the replaced
value, from the ztensor `stickify` returned for the gates' raw payloads; when they
fail they create nothing. -/
theorem emitZHighStickifiedConstant_value (S : Support) (loc : Location)
    (ztensor : zdnn_ztensor) (outputType : MlirType) (s : PassState)
    (replacingValue inputF inputI inputC inputO inputZ inputR inputH : Value)
    (hsize : ztensor.buffer_size < 2 ^ 64) :
    (∃ (op : ZHighStickifiedConstantOp) (type : MlirType) (blob : List Byte),
      emitZHighStickifiedConstant S loc ztensor outputType s =
        (⟨s.created ++ [op], s.calls⟩, Except.ok op) ∧
      op.stickified = true ∧ op.resultType = outputType ∧
      op.value = some (Attribute.denseResource type S.dialectNamespace blob) ∧
      blob.length = ztensor.buffer_size ∧
      blob = (List.range ztensor.buffer_size).map ztensor.buffer ∧
      ∀ size_in_bytes : zdnn_tensor_desc → Nat,
        ztensor.buffer_size = size_in_bytes ztensor.transformed_desc →
        blob.length = size_in_bytes ztensor.transformed_desc) ∧
    (((∃ e, (createConstantForStickForLSTM S replacingValue inputF inputI inputC inputO s).2 =
          Except.error e) ∧
        newCreated s
          (createConstantForStickForLSTM S replacingValue inputF inputI inputC inputO s).1 = []) ∨
      ∃ (df di dc dO : DenseElementsAttr) (allocated sticked : zdnn_ztensor) (s1 : PassState),
        inputF.payload = some df ∧ inputI.payload = some di ∧ inputC.payload = some dc ∧
        inputO.payload = some dO ∧
        S.stickify allocated
            [S.getRawData df, S.getRawData di, S.getRawData dc, S.getRawData dO] =
          (zdnn_status.ZDNN_OK, sticked) ∧
        s1.created = s.created ∧
        createConstantForStickForLSTM S replacingValue inputF inputI inputC inputO s =
          emitZHighStickifiedConstant S replacingValue.loc sticked replacingValue.type s1) ∧
    (((∃ e, (createConstantForStickForGRU S replacingValue inputZ inputR inputH s).2 =
          Except.error e) ∧
        newCreated s
          (createConstantForStickForGRU S replacingValue inputZ inputR inputH s).1 = []) ∨
      ∃ (dz dr dh : DenseElementsAttr) (allocated sticked : zdnn_ztensor) (s1 : PassState),
        inputZ.payload = some dz ∧ inputR.payload = some dr ∧ inputH.payload = some dh ∧
        S.stickify allocated [S.getRawData dz, S.getRawData dr, S.getRawData dh] =
          (zdnn_status.ZDNN_OK, sticked) ∧
        s1.created = s.created ∧
        createConstantForStickForGRU S replacingValue inputZ inputR inputH s =
          emitZHighStickifiedConstant S replacingValue.loc sticked replacingValue.type s1) := by
  refine ⟨?_, ?_, ?_⟩
  · refine ⟨stickifiedConstantOf S loc ztensor outputType, _, _, emit_run S loc ztensor outputType s,
      rfl, rfl, rfl, ?_, ?_, ?_⟩
    · simp [arrayRef, toSizeT_toInt64 _ hsize]
    · simp [arrayRef, toSizeT_toInt64 _ hsize]
    · intro size_in_bytes hs
      rw [← hs]
      simp [arrayRef, toSizeT_toInt64 _ hsize]
  · rw [lstm_run]
    split_ifs
    · left; simp
    · left; simp
    · left; simp
    · split
      · rename_i df di dc dO hf hi hc ho
        rcases stickGates_cases S S.RNN_TYPE_LSTM replacingValue.loc replacingValue.type
          inputF.type.getShape inputF.type.getElementType
          [S.getRawData df, S.getRawData di, S.getRawData dc, S.getRawData dO] s with
          h | ⟨t, pre, tf, h | h | h | ⟨za, zs, hs, h⟩⟩
        · left; rw [h]; simp
        · left; rw [h]; simp
        · left; rw [h]; simp
        · left; rw [h]; simp
        · right
          refine ⟨df, di, dc, dO, za, zs,
            ⟨s.created, (stickGates S S.RNN_TYPE_LSTM replacingValue.loc replacingValue.type
              inputF.type.getShape inputF.type.getElementType
              [S.getRawData df, S.getRawData di, S.getRawData dc, S.getRawData dO] s).1.calls⟩,
            hf, hi, hc, ho, hs, rfl, ?_⟩
          rw [emit_run, h]
      · left; simp
  · rw [gru_run]
    split_ifs
    · left; simp
    · left; simp
    · left; simp
    · split
      · rename_i dz dr dh hz hr hh
        rcases stickGates_cases S S.RNN_TYPE_GRU replacingValue.loc replacingValue.type
          inputZ.type.getShape inputZ.type.getElementType
          [S.getRawData dz, S.getRawData dr, S.getRawData dh] s with
          h | ⟨t, pre, tf, h | h | h | ⟨za, zs, hs, h⟩⟩
        · left; rw [h]; simp
        · left; rw [h]; simp
        · left; rw [h]; simp
        · left; rw [h]; simp
        · right
          refine ⟨dz, dr, dh, za, zs,
            ⟨s.created, (stickGates S S.RNN_TYPE_GRU replacingValue.loc replacingValue.type
              inputZ.type.getShape inputZ.type.getElementType
              [S.getRawData dz, S.getRawData dr, S.getRawData dh] s).1.calls⟩,
            hz, hr, hh, hs, rfl, ?_⟩
          rw [emit_run, h]
      · left; simp

/-- Witness of C1 on a ztensor of four bytes whose transformed descriptor has size
4. -/
theorem emitZHighStickifiedConstant_value_witness :
    sampleZtensor.buffer_size < 2 ^ 64 ∧
    sampleZtensor.buffer_size = (fun _ => 4) sampleZtensor.transformed_desc ∧
    ∃ (op : ZHighStickifiedConstantOp) (type : MlirType) (blob : List Byte),
      emitZHighStickifiedConstant sampleSupport 7 sampleZtensor sampleReplaced.type
          PassState.init =
        (⟨PassState.init.created ++ [op], PassState.init.calls⟩, Except.ok op) ∧
      op.stickified = true ∧ op.resultType = sampleReplaced.type ∧
      op.value = some (Attribute.denseResource type sampleSupport.dialectNamespace blob) ∧
      blob.length = sampleZtensor.buffer_size ∧
      blob = (List.range sampleZtensor.buffer_size).map sampleZtensor.buffer ∧
      blob.length = 4 :=
  ⟨by decide, rfl,
    match emitZHighStickifiedConstant_value sampleSupport 7 sampleZtensor sampleReplaced.type
      PassState.init sampleReplaced sampleGateF sampleGateI sampleGateC sampleGateO
      sampleGateF sampleGateI sampleGateC (by decide) with
    | ⟨⟨op, type, blob, h1, h2, h3, h4, h5, h6, h7⟩, _, _⟩ =>
      ⟨op, type, blob, h1, h2, h3, h4, h5, h6, h7 (fun _ => 4) rfl⟩⟩

/-- The emission for `sampleZtensor`, evaluated: the value is the blob of the four
bytes of the buffer. -/
theorem sampleEmit_run :
    emitZHighStickifiedConstant sampleSupport 7 sampleZtensor sampleReplaced.type
        PassState.init =
      (⟨[⟨7, sampleReplaced.type, true,
            some (Attribute.denseResource
              (MlirType.rankedTensor [4] (MlirType.integerType 8) none) "zhigh"
              [10, 11, 12, 13]), 4096⟩], []⟩,
        Except.ok ⟨7, sampleReplaced.type, true,
          some (Attribute.denseResource
            (MlirType.rankedTensor [4] (MlirType.integerType 8) none) "zhigh"
            [10, 11, 12, 13]), 4096⟩) := by
  rfl

/-! ## C2 -/

/-- C2: for every source value whose producer carries a dense "value" payload,
`createConstantForStick` succeeds and returns (and records as created) a constant
with `stickified = false`, the source's dense elements attribute unchanged as
value, and the type of the replaced value as result type; it calls nothing in the
support library. -/
theorem createConstantForStick_dense (replacingValue input : Value) (layout : String)
    (s : PassState) (producer : Operation) (dataAttr : DenseElementsAttr)
    (hop : input.definingOp = some producer)
    (hval : producer.getAttr "value" = some (Attribute.denseElements dataAttr)) :
    ∃ op : ZHighStickifiedConstantOp,
      createConstantForStick replacingValue input layout s =
        (⟨s.created ++ [op], s.calls⟩, Except.ok op) ∧
      op.stickified = false ∧
      op.value = some (Attribute.denseElements dataAttr) ∧
      op.resultType = replacingValue.type := by
  have hp : input.payload = some dataAttr := by
    simp [Value.payload, hop, hval, dynCastOrNullDenseElementsAttr]
  refine ⟨⟨replacingValue.loc, replacingValue.type, false,
    some (Attribute.denseElements dataAttr), 4096⟩, ?_, rfl, rfl, rfl⟩
  rw [stick_run, hop, hp]

/-- Witness of C2 on a rank-1 constant. -/
theorem createConstantForStick_dense_witness :
    sampleVector.definingOp = some (constantOp (f32Tensor [4]) [1, 2, 3, 4]) ∧
    (constantOp (f32Tensor [4]) [1, 2, 3, 4]).getAttr "value" =
      some (Attribute.denseElements ⟨f32Tensor [4], [1, 2, 3, 4]⟩) ∧
    ∃ op : ZHighStickifiedConstantOp,
      createConstantForStick sampleReplaced sampleVector "1D" PassState.init =
        (⟨PassState.init.created ++ [op], PassState.init.calls⟩, Except.ok op) ∧
      op.stickified = false ∧
      op.value = some (Attribute.denseElements ⟨f32Tensor [4], [1, 2, 3, 4]⟩) ∧
      op.resultType = sampleReplaced.type :=
  ⟨rfl, by decide,
    createConstantForStick_dense sampleReplaced sampleVector "1D" PassState.init
      (constantOp (f32Tensor [4]) [1, 2, 3, 4]) ⟨f32Tensor [4], [1, 2, 3, 4]⟩ rfl (by decide)⟩

/-! ## C3 -/

theorem stickGates_created (S : Support) (rnnType : Nat) (loc : Location)
    (outputType : MlirType) (shape : List Int) (elementType : MlirType)
    (buffers : List (List Byte)) (s : PassState) :
    (∃ e, (stickGates S rnnType loc outputType shape elementType buffers s).2 =
        Except.error e ∧
      (stickGates S rnnType loc outputType shape elementType buffers s).1.created =
        s.created) ∨
    ∃ op : ZHighStickifiedConstantOp,
      (stickGates S rnnType loc outputType shape elementType buffers s).2 = Except.ok op ∧
      (stickGates S rnnType loc outputType shape elementType buffers s).1.created =
        s.created ++ [op] ∧
      op.alignment = 4096 := by
  rcases stickGates_cases S rnnType loc outputType shape elementType buffers s with
    h | ⟨t, pre, tf, h | h | h | ⟨za, zs, _, h⟩⟩ <;> rw [h]
  · left; exact ⟨_, rfl, rfl⟩
  · left; exact ⟨_, rfl, rfl⟩
  · left; exact ⟨_, rfl, rfl⟩
  · left; exact ⟨_, rfl, rfl⟩
  · right; exact ⟨_, rfl, rfl, rfl⟩

/-- Every run of a creation operation either fails and creates nothing, or returns
one constant, of alignment 4096, which is the only one it creates. -/
theorem creation_created (S : Support) (req : Creation) (s : PassState) :
    (∃ e, (req.run S s).2 = Except.error e ∧ (req.run S s).1.created = s.created) ∨
    ∃ op : ZHighStickifiedConstantOp,
      (req.run S s).2 = Except.ok op ∧ (req.run S s).1.created = s.created ++ [op] ∧
      op.alignment = 4096 := by
  cases req with
  | stick rv input layout =>
    simp only [Creation.run]
    rw [stick_run]
    split
    · left; exact ⟨_, rfl, rfl⟩
    · split
      · left; exact ⟨_, rfl, rfl⟩
      · right; exact ⟨_, rfl, rfl, rfl⟩
  | lstm rv f i c o =>
    simp only [Creation.run]
    rw [lstm_run]
    split_ifs
    · left; exact ⟨_, rfl, rfl⟩
    · left; exact ⟨_, rfl, rfl⟩
    · left; exact ⟨_, rfl, rfl⟩
    · split
      · exact stickGates_created _ _ _ _ _ _ _ _
      · left; exact ⟨_, rfl, rfl⟩
  | gru rv z r h =>
    simp only [Creation.run]
    rw [gru_run]
    split_ifs
    · left; exact ⟨_, rfl, rfl⟩
    · left; exact ⟨_, rfl, rfl⟩
    · left; exact ⟨_, rfl, rfl⟩
    · split
      · exact stickGates_created _ _ _ _ _ _ _ _
      · left; exact ⟨_, rfl, rfl⟩

/-- C3: every constant a creation operation (`createConstantForStick`,
`createConstantForStickForLSTM`, `createConstantForStickForGRU`) returns or
records as created has alignment exactly 4096, for every support library, every
request (shapes, element types, payloads) and every starting state. -/
theorem creation_alignment (S : Support) (req : Creation) (s : PassState)
    (op : ZHighStickifiedConstantOp)
    (h : (req.run S s).2 = Except.ok op ∨ op ∈ newCreated s (req.run S s).1) :
    op.alignment = 4096 := by
  rcases creation_created S req s with ⟨e, he, hc⟩ | ⟨c, hok, hc, ha⟩
  · rw [he] at h
    simp [newCreated, hc] at h
  · rw [hok] at h
    simp only [newCreated, hc, List.drop_left, List.mem_singleton, Except.ok.injEq] at h
    rcases h with h | h <;> rw [← ha] <;> simp [h]

/-- The sample LSTM request, evaluated: five calls into the support library and
one constant. -/
theorem sampleLstm_run :
    createConstantForStickForLSTM sampleSupport sampleReplaced sampleGateF sampleGateI
        sampleGateC sampleGateO PassState.init =
      (⟨[sampleLstmConstant],
          [Call.set_info_pre_transformed_desc zdnn_data_layouts.ZDNN_2DS 2 [2, 8],
            Call.generate_transformed_desc_concatenated ⟨2, 2, [2, 8]⟩ 8,
            Call.init_ztensor ⟨2, 2, [2, 8]⟩ ⟨8, 0, [2, 8]⟩,
            Call.allochelper_ztensor_alloc,
            Call.stickify [[1, 2], [3, 4], [5, 6], [7, 8]]]⟩,
        Except.ok sampleLstmConstant) := by
  rfl

/-- Witness of C3 on the sample LSTM request. -/
theorem creation_alignment_witness :
    ((Creation.lstm sampleReplaced sampleGateF sampleGateI sampleGateC sampleGateO).run
        sampleSupport PassState.init).2 = Except.ok sampleLstmConstant ∧
    sampleLstmConstant.alignment = 4096 :=
  ⟨rfl,
    creation_alignment sampleSupport
      (Creation.lstm sampleReplaced sampleGateF sampleGateI sampleGateC sampleGateO)
      PassState.init sampleLstmConstant (Or.inl rfl)⟩

/-! ## C4 -/

/-- C4: the gate sequence handed to `stickify` is fixed by cell type.  A run of
`createConstantForStickForLSTM` either fails without calling `stickify`, or calls
it exactly once with exactly 4 source buffers: the raw payloads of `inputF`,
`inputI`, `inputC`, `inputO`, in this order.  A run of
`createConstantForStickForGRU` either fails without calling `stickify`, or calls it
exactly once with exactly 3 source buffers: the raw payloads of `inputZ`, `inputR`,
`inputH`, in this order.  A run that returns a constant is of the second kind. -/
theorem fused_stickify_buffers (S : Support)
    (replacingValue inputF inputI inputC inputO inputZ inputR inputH : Value)
    (s : PassState) :
    ((stickifyBuffers (newCalls s
          (createConstantForStickForLSTM S replacingValue inputF inputI inputC inputO s).1) = [] ∧
        ∃ e, (createConstantForStickForLSTM S replacingValue inputF inputI inputC inputO s).2 =
          Except.error e) ∨
      ∃ df di dc dO : DenseElementsAttr,
        inputF.payload = some df ∧ inputI.payload = some di ∧ inputC.payload = some dc ∧
        inputO.payload = some dO ∧
        stickifyBuffers (newCalls s
            (createConstantForStickForLSTM S replacingValue inputF inputI inputC inputO s).1) =
          [[S.getRawData df, S.getRawData di, S.getRawData dc, S.getRawData dO]]) ∧
    ((stickifyBuffers (newCalls s
          (createConstantForStickForGRU S replacingValue inputZ inputR inputH s).1) = [] ∧
        ∃ e, (createConstantForStickForGRU S replacingValue inputZ inputR inputH s).2 =
          Except.error e) ∨
      ∃ dz dr dh : DenseElementsAttr,
        inputZ.payload = some dz ∧ inputR.payload = some dr ∧ inputH.payload = some dh ∧
        stickifyBuffers (newCalls s
            (createConstantForStickForGRU S replacingValue inputZ inputR inputH s).1) =
          [[S.getRawData dz, S.getRawData dr, S.getRawData dh]]) := by
  constructor
  · rw [lstm_run]
    split_ifs
    · left; simp [stickifyBuffers]
    · left; simp [stickifyBuffers]
    · left; simp [stickifyBuffers]
    · split
      · rename_i df di dc dO hf hi hc ho
        rcases stickGates_cases S S.RNN_TYPE_LSTM replacingValue.loc replacingValue.type
          inputF.type.getShape inputF.type.getElementType
          [S.getRawData df, S.getRawData di, S.getRawData dc, S.getRawData dO] s with
          h | ⟨t, pre, tf, h | h | h | ⟨za, zs, hs, h⟩⟩ <;> rw [h]
        · left; simp [stickifyBuffers]
        · left; simp [stickifyBuffers]
        · left; simp [stickifyBuffers]
        · right; exact ⟨df, di, dc, dO, hf, hi, hc, ho, by simp [stickifyBuffers]⟩
        · right; exact ⟨df, di, dc, dO, hf, hi, hc, ho, by simp [stickifyBuffers]⟩
      · left; simp [stickifyBuffers]
  · rw [gru_run]
    split_ifs
    · left; simp [stickifyBuffers]
    · left; simp [stickifyBuffers]
    · left; simp [stickifyBuffers]
    · split
      · rename_i dz dr dh hz hr hh
        rcases stickGates_cases S S.RNN_TYPE_GRU replacingValue.loc replacingValue.type
          inputZ.type.getShape inputZ.type.getElementType
          [S.getRawData dz, S.getRawData dr, S.getRawData dh] s with
          h | ⟨t, pre, tf, h | h | h | ⟨za, zs, hs, h⟩⟩ <;> rw [h]
        · left; simp [stickifyBuffers]
        · left; simp [stickifyBuffers]
        · left; simp [stickifyBuffers]
        · right; exact ⟨dz, dr, dh, hz, hr, hh, by simp [stickifyBuffers]⟩
        · right; exact ⟨dz, dr, dh, hz, hr, hh, by simp [stickifyBuffers]⟩
      · left; simp [stickifyBuffers]

/-! ## C5 -/

theorem stickGates_layout (S : Support) (rnnType : Nat) (loc : Location)
    (outputType : MlirType) (shape : List Int) (elementType : MlirType)
    (buffers : List (List Byte)) (s : PassState) :
    (preTransformedLayouts
          (newCalls s (stickGates S rnnType loc outputType shape elementType buffers s).1) = [] ∧
        concatInfos
          (newCalls s (stickGates S rnnType loc outputType shape elementType buffers s).1) = [] ∧
        ∃ e, (stickGates S rnnType loc outputType shape elementType buffers s).2 =
          Except.error e) ∨
      (preTransformedLayouts
          (newCalls s (stickGates S rnnType loc outputType shape elementType buffers s).1) =
            [fusedLayout shape] ∧
        concatInfos
          (newCalls s (stickGates S rnnType loc outputType shape elementType buffers s).1) =
            [fusedConcatInfo S rnnType shape]) := by
  rcases stickGates_cases S rnnType loc outputType shape elementType buffers s with
    h | ⟨t, pre, tf, h | h | h | ⟨za, zs, _, h⟩⟩ <;> rw [h]
  · left; simp [preTransformedLayouts, concatInfos]
  · right; simp [preTransformedLayouts, concatInfos]
  · right; simp [preTransformedLayouts, concatInfos]
  · right; simp [preTransformedLayouts, concatInfos]
  · right; simp [preTransformedLayouts, concatInfos]

/-- C5: in both fused paths the layout and the concatenation info handed to the
support library depend on the first gate's rank only.  A run of
`createConstantForStickForLSTM` (of `createConstantForStickForGRU`) either fails
before any descriptor call, or the first gate has rank 2, the one pre-transformed
descriptor is built with layout `ZDNN_2DS` and the one transformed descriptor with
the info `RNN_TYPE_LSTM | USAGE_BIASES | PREV_LAYER_NONE` (`RNN_TYPE_GRU | ...`), or
the first gate has rank 3, the layout is `ZDNN_3DS` and the info
`RNN_TYPE_LSTM | USAGE_WEIGHTS | PREV_LAYER_NONE` (`RNN_TYPE_GRU | ...`). -/
theorem fused_layout_and_concat_info (S : Support)
    (replacingValue inputF inputI inputC inputO inputZ inputR inputH : Value)
    (s : PassState) :
    ((preTransformedLayouts (newCalls s
          (createConstantForStickForLSTM S replacingValue inputF inputI inputC inputO s).1) = [] ∧
        concatInfos (newCalls s
          (createConstantForStickForLSTM S replacingValue inputF inputI inputC inputO s).1) = [] ∧
        ∃ e, (createConstantForStickForLSTM S replacingValue inputF inputI inputC inputO s).2 =
          Except.error e) ∨
      (inputF.type.getShape.length = 2 ∧
        preTransformedLayouts (newCalls s
          (createConstantForStickForLSTM S replacingValue inputF inputI inputC inputO s).1) =
            [zdnn_data_layouts.ZDNN_2DS] ∧
        concatInfos (newCalls s
          (createConstantForStickForLSTM S replacingValue inputF inputI inputC inputO s).1) =
            [S.RNN_TYPE_LSTM ||| S.USAGE_BIASES ||| S.PREV_LAYER_NONE]) ∨
      (inputF.type.getShape.length = 3 ∧
        preTransformedLayouts (newCalls s
          (createConstantForStickForLSTM S replacingValue inputF inputI inputC inputO s).1) =
            [zdnn_data_layouts.ZDNN_3DS] ∧
        concatInfos (newCalls s
          (createConstantForStickForLSTM S replacingValue inputF inputI inputC inputO s).1) =
            [S.RNN_TYPE_LSTM ||| S.USAGE_WEIGHTS ||| S.PREV_LAYER_NONE])) ∧
    ((preTransformedLayouts (newCalls s
          (createConstantForStickForGRU S replacingValue inputZ inputR inputH s).1) = [] ∧
        concatInfos (newCalls s
          (createConstantForStickForGRU S replacingValue inputZ inputR inputH s).1) = [] ∧
        ∃ e, (createConstantForStickForGRU S replacingValue inputZ inputR inputH s).2 =
          Except.error e) ∨
      (inputZ.type.getShape.length = 2 ∧
        preTransformedLayouts (newCalls s
          (createConstantForStickForGRU S replacingValue inputZ inputR inputH s).1) =
            [zdnn_data_layouts.ZDNN_2DS] ∧
        concatInfos (newCalls s
          (createConstantForStickForGRU S replacingValue inputZ inputR inputH s).1) =
            [S.RNN_TYPE_GRU ||| S.USAGE_BIASES ||| S.PREV_LAYER_NONE]) ∨
      (inputZ.type.getShape.length = 3 ∧
        preTransformedLayouts (newCalls s
          (createConstantForStickForGRU S replacingValue inputZ inputR inputH s).1) =
            [zdnn_data_layouts.ZDNN_3DS] ∧
        concatInfos (newCalls s
          (createConstantForStickForGRU S replacingValue inputZ inputR inputH s).1) =
            [S.RNN_TYPE_GRU ||| S.USAGE_WEIGHTS ||| S.PREV_LAYER_NONE])) := by
  constructor
  · rw [lstm_run]
    split_ifs with h1 h2 h3
    · left; simp [preTransformedLayouts, concatInfos]
    · left; simp [preTransformedLayouts, concatInfos]
    · left; simp [preTransformedLayouts, concatInfos]
    · split
      · rename_i df di dc dO hf hi hc ho
        rcases stickGates_layout S S.RNN_TYPE_LSTM replacingValue.loc replacingValue.type
          inputF.type.getShape inputF.type.getElementType
          [S.getRawData df, S.getRawData di, S.getRawData dc, S.getRawData dO] s with
          h | ⟨hl, hc⟩
        · left; exact h
        · by_cases hr : inputF.type.getShape.length = 2
          · right; left
            refine ⟨hr, ?_, ?_⟩
            · rw [hl]; simp [fusedLayout, hr]
            · rw [hc]; simp [fusedConcatInfo, hr]
          · have hr3 : inputF.type.getShape.length = 3 := by tauto
            right; right
            refine ⟨hr3, ?_, ?_⟩
            · rw [hl]; simp [fusedLayout, hr3]
            · rw [hc]; simp [fusedConcatInfo, hr3]
      · left; simp [preTransformedLayouts, concatInfos]
  · rw [gru_run]
    split_ifs with h1 h2 h3
    · left; simp [preTransformedLayouts, concatInfos]
    · left; simp [preTransformedLayouts, concatInfos]
    · left; simp [preTransformedLayouts, concatInfos]
    · split
      · rename_i dz dr dh hz hr hh
        rcases stickGates_layout S S.RNN_TYPE_GRU replacingValue.loc replacingValue.type
          inputZ.type.getShape inputZ.type.getElementType
          [S.getRawData dz, S.getRawData dr, S.getRawData dh] s with
          h | ⟨hl, hc⟩
        · left; exact h
        · by_cases hr : inputZ.type.getShape.length = 2
          · right; left
            refine ⟨hr, ?_, ?_⟩
            · rw [hl]; simp [fusedLayout, hr]
            · rw [hc]; simp [fusedConcatInfo, hr]
          · have hr3 : inputZ.type.getShape.length = 3 := by tauto
            right; right
            refine ⟨hr3, ?_, ?_⟩
            · rw [hl]; simp [fusedLayout, hr3]
            · rw [hc]; simp [fusedConcatInfo, hr3]
      · left; simp [preTransformedLayouts, concatInfos]

/-- A GRU request on three gates of shape (3,8,8), evaluated: the layout is
`ZDNN_3DS` and the concatenation info `RNN_TYPE_GRU | USAGE_WEIGHTS |
PREV_LAYER_NONE` (1 with the sample flags; the info with `USAGE_BIASES` would be
9). -/
theorem sampleGruWeights_calls :
    (createConstantForStickForGRU sampleSupport sampleReplaced sampleWeightGate
        sampleWeightGate sampleWeightGate PassState.init).1.calls =
      [Call.set_info_pre_transformed_desc zdnn_data_layouts.ZDNN_3DS 2 [3, 8, 8],
        Call.generate_transformed_desc_concatenated ⟨3, 2, [3, 8, 8]⟩ 1,
        Call.init_ztensor ⟨3, 2, [3, 8, 8]⟩ ⟨1, 0, [3, 8, 8]⟩,
        Call.allochelper_ztensor_alloc,
        Call.stickify [[1, 2], [1, 2], [1, 2]]] ∧
    sampleSupport.RNN_TYPE_GRU ||| sampleSupport.USAGE_WEIGHTS |||
      sampleSupport.PREV_LAYER_NONE = 1 ∧
    sampleSupport.RNN_TYPE_GRU ||| sampleSupport.USAGE_BIASES |||
      sampleSupport.PREV_LAYER_NONE = 9 :=
  ⟨rfl, rfl, rfl⟩


/-! ## C6 -/

theorem stickGates_failure (S : Support) (rnnType : Nat) (loc : Location)
    (outputType : MlirType) (shape : List Int) (elementType : MlirType)
    (buffers : List (List Byte)) (s : PassState) (e : Failure)
    (h : (stickGates S rnnType loc outputType shape elementType buffers s).2 =
      Except.error e) :
    e = Failure.unsupportedDataType ∨ e = Failure.statusNotOk := by
  rcases stickGates_cases S rnnType loc outputType shape elementType buffers s with
    h1 | ⟨t, pre, tf, h1 | h1 | h1 | ⟨za, zs, _, h1⟩⟩ <;> rw [h1] at h <;> simp at h
  · left; exact h.symm
  · right; exact h.symm
  · right; exact h.symm
  · right; exact h.symm

/-- C6: for a first gate of shaped type, `createConstantForStickForLSTM` and
`createConstantForStickForGRU` fail with the shape error ("Wrong tensor shape") if
and only if the rank of the first gate's shape is neither 2 nor 3; when they do,
the state is the starting state: no descriptor was built, nothing was allocated or
sticked, and no constant was created. -/
theorem fused_shape_error_iff (S : Support)
    (replacingValue inputF inputI inputC inputO inputZ inputR inputH : Value)
    (s : PassState)
    (hF : inputF.type.isShapedType = true) (hZ : inputZ.type.isShapedType = true) :
    (((createConstantForStickForLSTM S replacingValue inputF inputI inputC inputO s).2 =
          Except.error Failure.wrongTensorShape ↔
        (inputF.type.getShape.length ≠ 2 ∧ inputF.type.getShape.length ≠ 3)) ∧
      ((createConstantForStickForLSTM S replacingValue inputF inputI inputC inputO s).2 =
          Except.error Failure.wrongTensorShape →
        (createConstantForStickForLSTM S replacingValue inputF inputI inputC inputO s).1 = s)) ∧
    (((createConstantForStickForGRU S replacingValue inputZ inputR inputH s).2 =
          Except.error Failure.wrongTensorShape ↔
        (inputZ.type.getShape.length ≠ 2 ∧ inputZ.type.getShape.length ≠ 3)) ∧
      ((createConstantForStickForGRU S replacingValue inputZ inputR inputH s).2 =
          Except.error Failure.wrongTensorShape →
        (createConstantForStickForGRU S replacingValue inputZ inputR inputH s).1 = s)) := by
  constructor
  · rw [lstm_run]
    by_cases hr : inputF.type.getShape.length ≠ 2 ∧ inputF.type.getShape.length ≠ 3
    · simp [hF, hr]
    · simp only [hF, hr, reduceCtorEq, if_false, iff_false]
      have key : ¬ ((if inputF.definingOp = none ∨ inputI.definingOp = none ∨
            inputC.definingOp = none ∨ inputO.definingOp = none then
            (s, Except.error Failure.nullOperation)
          else
            match inputF.payload, inputI.payload, inputC.payload, inputO.payload with
            | some df, some di, some dc, some dO =>
              stickGates S S.RNN_TYPE_LSTM replacingValue.loc replacingValue.type
                inputF.type.getShape inputF.type.getElementType
                [S.getRawData df, S.getRawData di, S.getRawData dc, S.getRawData dO] s
            | _, _, _, _ => (s, Except.error Failure.attributeIsNull)).2 =
          Except.error Failure.wrongTensorShape) := by
        split_ifs
        · simp
        · split
          · intro h
            rcases stickGates_failure _ _ _ _ _ _ _ _ _ h with h | h <;> simp at h
          · simp
      exact ⟨key, fun h => absurd h key⟩
  · rw [gru_run]
    by_cases hr : inputZ.type.getShape.length ≠ 2 ∧ inputZ.type.getShape.length ≠ 3
    · simp [hZ, hr]
    · simp only [hZ, hr, reduceCtorEq, if_false, iff_false]
      have key : ¬ ((if inputZ.definingOp = none ∨ inputR.definingOp = none ∨
            inputH.definingOp = none then
            (s, Except.error Failure.nullOperation)
          else
            match inputZ.payload, inputR.payload, inputH.payload with
            | some dz, some dr, some dh =>
              stickGates S S.RNN_TYPE_GRU replacingValue.loc replacingValue.type
                inputZ.type.getShape inputZ.type.getElementType
                [S.getRawData dz, S.getRawData dr, S.getRawData dh] s
            | _, _, _ => (s, Except.error Failure.attributeIsNull)).2 =
          Except.error Failure.wrongTensorShape) := by
        split_ifs
        · simp
        · split
          · intro h
            rcases stickGates_failure _ _ _ _ _ _ _ _ _ h with h | h <;> simp at h
          · simp
      exact ⟨key, fun h => absurd h key⟩

/-- Witness of C6: a rank-1 first gate in the LSTM path and a rank-4 first gate in
the GRU path. -/
theorem fused_shape_error_iff_witness :
    sampleGateRank1.type.isShapedType = true ∧ sampleGateRank4.type.isShapedType = true ∧
    (((createConstantForStickForLSTM sampleSupport sampleReplaced sampleGateRank1 sampleGateI
          sampleGateC sampleGateO PassState.init).2 = Except.error Failure.wrongTensorShape ↔
        (sampleGateRank1.type.getShape.length ≠ 2 ∧
          sampleGateRank1.type.getShape.length ≠ 3)) ∧
      ((createConstantForStickForLSTM sampleSupport sampleReplaced sampleGateRank1 sampleGateI
          sampleGateC sampleGateO PassState.init).2 = Except.error Failure.wrongTensorShape →
        (createConstantForStickForLSTM sampleSupport sampleReplaced sampleGateRank1 sampleGateI
          sampleGateC sampleGateO PassState.init).1 = PassState.init)) ∧
    (((createConstantForStickForGRU sampleSupport sampleReplaced sampleGateRank4 sampleGateI
          sampleGateC PassState.init).2 = Except.error Failure.wrongTensorShape ↔
        (sampleGateRank4.type.getShape.length ≠ 2 ∧
          sampleGateRank4.type.getShape.length ≠ 3)) ∧
      ((createConstantForStickForGRU sampleSupport sampleReplaced sampleGateRank4 sampleGateI
          sampleGateC PassState.init).2 = Except.error Failure.wrongTensorShape →
        (createConstantForStickForGRU sampleSupport sampleReplaced sampleGateRank4 sampleGateI
          sampleGateC PassState.init).1 = PassState.init)) :=
  ⟨rfl, rfl,
    fused_shape_error_iff sampleSupport sampleReplaced sampleGateRank1 sampleGateI sampleGateC
      sampleGateO sampleGateRank4 sampleGateI sampleGateC PassState.init rfl rfl⟩

/-- The two runs of the witness of C6, evaluated: both stop with the shape error in
the starting state. -/
theorem fused_shape_error_runs :
    createConstantForStickForLSTM sampleSupport sampleReplaced sampleGateRank1 sampleGateI
        sampleGateC sampleGateO PassState.init =
      (PassState.init, Except.error Failure.wrongTensorShape) ∧
    createConstantForStickForGRU sampleSupport sampleReplaced sampleGateRank4 sampleGateI
        sampleGateC PassState.init =
      (PassState.init, Except.error Failure.wrongTensorShape) :=
  ⟨rfl, rfl⟩

/-! ## C7 -/

/-- C7, counterexample: an LSTM gate set whose second gate has another shape and
whose third gate has another element type than the first, and a GRU gate set with
the same two gates after the first; both operations return a constant and record
it as created. -/
theorem fused_gate_mismatch_counterexample :
    sampleGateNarrow.type.getShape ≠ sampleGateF.type.getShape ∧
    sampleGateHalf.type.getElementType ≠ sampleGateF.type.getElementType ∧
    createConstantForStickForLSTM sampleSupport sampleReplaced sampleGateF sampleGateNarrow
        sampleGateHalf sampleGateO PassState.init =
      (⟨[sampleLstmConstant],
          [Call.set_info_pre_transformed_desc zdnn_data_layouts.ZDNN_2DS 2 [2, 8],
            Call.generate_transformed_desc_concatenated ⟨2, 2, [2, 8]⟩ 8,
            Call.init_ztensor ⟨2, 2, [2, 8]⟩ ⟨8, 0, [2, 8]⟩,
            Call.allochelper_ztensor_alloc,
            Call.stickify [[1, 2], [3, 4], [5, 6], [7, 8]]]⟩,
        Except.ok sampleLstmConstant) ∧
    createConstantForStickForGRU sampleSupport sampleReplaced sampleGateF sampleGateNarrow
        sampleGateHalf PassState.init =
      (⟨[sampleGruConstant],
          [Call.set_info_pre_transformed_desc zdnn_data_layouts.ZDNN_2DS 2 [2, 8],
            Call.generate_transformed_desc_concatenated ⟨2, 2, [2, 8]⟩ 9,
            Call.init_ztensor ⟨2, 2, [2, 8]⟩ ⟨9, 0, [2, 8]⟩,
            Call.allochelper_ztensor_alloc,
            Call.stickify [[1, 2], [3, 4], [5, 6]]]⟩,
        Except.ok sampleGruConstant) :=
  ⟨by decide, by decide, rfl, rfl⟩

/-- C7, amended: the outcome of `createConstantForStickForLSTM` and of
`createConstantForStickForGRU` (the failure or the constant, and the state) does
not depend on the types declared for the gates after the first: shape and element
type are read from the first gate only, and no gate is compared with it. -/
theorem fused_outcome_ignores_later_gate_types (S : Support)
    (replacingValue inputF inputI inputC inputO inputZ inputR inputH : Value)
    (s : PassState) (typeI typeC typeO typeR typeH : MlirType) :
    createConstantForStickForLSTM S replacingValue inputF
        ⟨typeI, inputI.loc, inputI.definingOp⟩ ⟨typeC, inputC.loc, inputC.definingOp⟩
        ⟨typeO, inputO.loc, inputO.definingOp⟩ s =
      createConstantForStickForLSTM S replacingValue inputF inputI inputC inputO s ∧
    createConstantForStickForGRU S replacingValue inputZ
        ⟨typeR, inputR.loc, inputR.definingOp⟩ ⟨typeH, inputH.loc, inputH.definingOp⟩ s =
      createConstantForStickForGRU S replacingValue inputZ inputR inputH s := by
  constructor
  · rw [lstm_run, lstm_run]
    rfl
  · rw [gru_run, gru_run]
    rfl

/-! ## C8 -/

/-- C8, counterexample: for a single source of rank 1 and for one of rank 4,
`createConstantForStick` returns a constant and records it as created. -/
theorem createConstantForStick_rank_counterexample :
    sampleVector.type.getShape.length = 1 ∧
    createConstantForStick sampleReplaced sampleVector "1D" PassState.init =
      (⟨[sampleVectorConstant], []⟩, Except.ok sampleVectorConstant) ∧
    sampleGateRank4.type.getShape.length = 4 ∧
    createConstantForStick sampleReplaced sampleGateRank4 "4D" PassState.init =
      (⟨[sampleRank4Constant], []⟩, Except.ok sampleRank4Constant) :=
  ⟨rfl, rfl, rfl, rfl⟩

/-- C8, amended: `createConstantForStick` makes no rank check.  Its outcome does not
depend on the type (so not on the rank) of the source value nor on the layout
argument, it never fails with the shape error, and it returns a constant exactly
when the producer of the source carries a dense "value" payload. -/
theorem createConstantForStick_ignores_rank (replacingValue input : Value)
    (layout layout1 : String) (type1 : MlirType) (s : PassState) :
    createConstantForStick replacingValue ⟨type1, input.loc, input.definingOp⟩ layout1 s =
      createConstantForStick replacingValue input layout s ∧
    (createConstantForStick replacingValue input layout s).2 ≠
      Except.error Failure.wrongTensorShape ∧
    ((∃ op, (createConstantForStick replacingValue input layout s).2 = Except.ok op) ↔
      ∃ dataAttr, input.payload = some dataAttr) := by
  refine ⟨?_, ?_, ?_⟩
  · rw [stick_run, stick_run]
    rfl
  · rw [stick_run]
    split
    · simp
    · split <;> simp
  · rw [stick_run]
    split
    · rename_i h
      simp [Value.payload, h]
    · split
      · rename_i h
        simp [h]
      · rename_i d h
        simp [h]

/-! ## C10 -/

theorem stickGates_not_attributeIsNull (S : Support) (rnnType : Nat) (loc : Location)
    (outputType : MlirType) (shape : List Int) (elementType : MlirType)
    (buffers : List (List Byte)) (s : PassState) :
    (stickGates S rnnType loc outputType shape elementType buffers s).2 ≠
      Except.error Failure.attributeIsNull := by
  intro h
  rcases stickGates_failure _ _ _ _ _ _ _ _ _ h with h | h <;> simp at h

/-- C10, counterexample: an LSTM request whose first gate has rank 1 and whose
third gate's producer has no "value" attribute; the run fails before anything is
built, but with the assertion "Wrong tensor shape", which comes first, not with
"Attribute is null". -/
theorem payload_check_counterexample :
    sampleGateNoValue.payload = none ∧
    createConstantForStickForLSTM sampleSupport sampleReplaced sampleGateRank1 sampleGateI
        sampleGateNoValue sampleGateO PassState.init =
      (PassState.init, Except.error Failure.wrongTensorShape) ∧
    Failure.wrongTensorShape ≠ Failure.attributeIsNull :=
  ⟨rfl, rfl, by decide⟩

/-- C10, amended: fetching the payload of a source constant is checked in each of
the three creation operations.  If some source of the request (any of the 4 of the LSTM path,
any of the 3 of the GRU path, the one of the single-source path) has no dense
"value" payload, the operation fails in the starting state: no descriptor was
built, nothing was allocated or sticked, no constant was created; and the failure
is the assertion "Attribute is null" whenever the run reaches that check (every
source has a producer and, in a fused path, the first gate passed the shape check
that comes first).  If every source carries a dense "value" payload, the check
passes: the operation does not fail with "Attribute is null". -/
theorem payload_check (S : Support) (req : Creation) (s : PassState) :
    ((∃ v ∈ req.sources, v.payload = none) →
      (req.run S s).1 = s ∧ (∃ e, (req.run S s).2 = Except.error e) ∧
      (req.reachesPayloadCheck → (req.run S s).2 = Except.error Failure.attributeIsNull)) ∧
    ((∀ v ∈ req.sources, v.payload ≠ none) →
      (req.run S s).2 ≠ Except.error Failure.attributeIsNull) := by
  cases req with
  | stick rv input layout =>
    simp only [Creation.run, Creation.sources, Creation.reachesPayloadCheck,
      List.mem_singleton, exists_eq_left, forall_eq, and_true]
    rw [stick_run]
    constructor
    · intro hp
      rw [hp]
      split
      · rename_i h; simp [h]
      · rename_i o h; simp [h]
    · intro hp
      split
      · rename_i h
        simp [Value.payload, h] at hp
      · split
        · rename_i h; exact absurd h hp
        · simp
  | lstm rv f i c o =>
    simp only [Creation.run, Creation.sources, Creation.reachesPayloadCheck,
      List.mem_cons, List.mem_singleton, List.not_mem_nil, or_false, exists_eq_or_imp,
      exists_eq_left, forall_eq_or_imp, forall_eq]
    rw [lstm_run]
    constructor
    · intro hp
      split_ifs with h1 h2 h3
      · refine ⟨rfl, ⟨_, rfl⟩, ?_⟩
        rintro ⟨_, hs, _⟩
        simp [hs] at h1
      · refine ⟨rfl, ⟨_, rfl⟩, ?_⟩
        rintro ⟨_, _, hr⟩
        omega
      · refine ⟨rfl, ⟨_, rfl⟩, ?_⟩
        rintro ⟨⟨hf, hi, hc, ho⟩, _⟩
        tauto
      · split
        · rename_i df di dc dO hf hi hc ho
          simp [hf, hi, hc, ho] at hp
        · exact ⟨rfl, ⟨_, rfl⟩, fun _ => rfl⟩
    · rintro ⟨hf, hi, hc, ho⟩
      split_ifs with h1 h2 h3
      · simp
      · simp
      · simp
      · split
        · exact stickGates_not_attributeIsNull _ _ _ _ _ _ _ _
        · rename_i hn
          exfalso
          obtain ⟨df, hdf⟩ := Option.ne_none_iff_exists'.mp hf
          obtain ⟨di, hdi⟩ := Option.ne_none_iff_exists'.mp hi
          obtain ⟨dc, hdc⟩ := Option.ne_none_iff_exists'.mp hc
          obtain ⟨dO, hdO⟩ := Option.ne_none_iff_exists'.mp ho
          exact hn df di dc dO hdf hdi hdc hdO
  | gru rv z r h =>
    simp only [Creation.run, Creation.sources, Creation.reachesPayloadCheck,
      List.mem_cons, List.mem_singleton, List.not_mem_nil, or_false, exists_eq_or_imp,
      exists_eq_left, forall_eq_or_imp, forall_eq]
    rw [gru_run]
    constructor
    · intro hp
      split_ifs with h1 h2 h3
      · refine ⟨rfl, ⟨_, rfl⟩, ?_⟩
        rintro ⟨_, hs, _⟩
        simp [hs] at h1
      · refine ⟨rfl, ⟨_, rfl⟩, ?_⟩
        rintro ⟨_, _, hr⟩
        omega
      · refine ⟨rfl, ⟨_, rfl⟩, ?_⟩
        rintro ⟨⟨hz, hr, hh⟩, _⟩
        tauto
      · split
        · rename_i dz dr dh hz hr hh
          simp [hz, hr, hh] at hp
        · exact ⟨rfl, ⟨_, rfl⟩, fun _ => rfl⟩
    · rintro ⟨hz, hr, hh⟩
      split_ifs with h1 h2 h3
      · simp
      · simp
      · simp
      · split
        · exact stickGates_not_attributeIsNull _ _ _ _ _ _ _ _
        · rename_i hn
          exfalso
          obtain ⟨dz, hdz⟩ := Option.ne_none_iff_exists'.mp hz
          obtain ⟨dr, hdr⟩ := Option.ne_none_iff_exists'.mp hr
          obtain ⟨dh, hdh⟩ := Option.ne_none_iff_exists'.mp hh
          exact hn dz dr dh hdz hdr hdh

/-- Witness of C10, amended: an LSTM request whose third gate's producer has no
"value", a GRU request whose third gate's "value" is not dense, and an LSTM request
whose four gates all carry a dense payload. -/
theorem payload_check_witness :
    ((Creation.lstm sampleReplaced sampleGateF sampleGateI sampleGateNoValue
          sampleGateO).run sampleSupport PassState.init =
        (PassState.init, Except.error Failure.attributeIsNull)) ∧
    ((Creation.gru sampleReplaced sampleGateF sampleGateI sampleGateNotDense).run
          sampleSupport PassState.init =
        (PassState.init, Except.error Failure.attributeIsNull)) ∧
    ((Creation.lstm sampleReplaced sampleGateF sampleGateI sampleGateC sampleGateO).run
          sampleSupport PassState.init).2 ≠ Except.error Failure.attributeIsNull := by
  have h1 := (payload_check sampleSupport
    (Creation.lstm sampleReplaced sampleGateF sampleGateI sampleGateNoValue sampleGateO)
    PassState.init).1 (by decide)
  have h2 := (payload_check sampleSupport
    (Creation.gru sampleReplaced sampleGateF sampleGateI sampleGateNotDense)
    PassState.init).1 (by decide)
  have h3 := (payload_check sampleSupport
    (Creation.lstm sampleReplaced sampleGateF sampleGateI sampleGateC sampleGateO)
    PassState.init).2 (by decide)
  refine ⟨Prod.ext h1.1 (h1.2.2 ?_), Prod.ext h2.1 (h2.2.2 ?_), h3⟩
  · decide
  · decide

end ZHighConstProp
